import Mathlib

/-!
# Verification of the CompressARC analysis pipeline

Shallow embedding of `analyze_example.py` and `batch_analyze.py`
(After-Thought/CompressARC).  Tensors are modelled over `ℚ` (the scripts
compute in float32; all claims here are about exact structural facts, so
arithmetic is modelled exactly).  A multitensor key ("axis presence
vector") is a `List Bool` of length 5 over the fixed axis schema
`[example, color, direction, height, width]`; a tensor additionally
carries one trailing channel axis.
-/

set_option autoImplicit false

namespace CompressARC

/-- The fixed ordered axis-name list, `axis_names` in `analyze_example.py`
(lines 210, 289, 363). -/
def axis_names : List String := ["example", "color", "direction", "height", "width"]

/-- Names of the axes marked present in a key, order preserved:
`[axis_name for axis_name, axis_exists in zip(axis_names, dims) if axis_exists]`. -/
def present_axis_names (dims : List Bool) : List String :=
  (axis_names.zip dims).filterMap (fun p => if p.2 then some p.1 else none)

/-- `tensor_name` from `analyze_example.py` lines 290-291: the
underscore-joined names of the present axes. -/
def tensor_name (dims : List Bool) : String :=
  String.intercalate "_" (present_axis_names dims)

/-- Component image filename, `analyze_example.py` line 343:
`folder + task_name + '_' + tensor_name + '_component_' + str(component_num) + '.png'`. -/
def component_filename (folder task_name tname : String) (component_num : ℕ) : String :=
  folder ++ task_name ++ "_" ++ tname ++ "_component_" ++ toString component_num ++ ".png"

/-- The significance filter of `analyze_example.py` lines 258-262: a key
(paired with its latest KL-amount tensor, modelled as the list of its
entries) is retained iff the sum of the KL amount exceeds 1. -/
def dims_to_plot (pairs : List (List Bool × List ℚ)) : List (List Bool) :=
  pairs.filterMap (fun p => if 1 < p.2.sum then some p.1 else none)

/-- The `cli_args` section of the configuration
(`get_default_config` / the merged config), `analyze_example.py` lines 36-42. -/
structure CliArgsConfig where
  split : Option String
  tasks : Option (List String)
  task : Option String
  output_dir : String
  device : String
  deriving DecidableEq, Repr

/-- The parsed command-line arguments (`args`), `analyze_example.py`
lines 65-76.  `argparse` yields `None` for unset `--split` / `--task`
(modelled with `Option`) and the literal defaults `'outputs'` / `'cuda:0'`
for `--output-dir` / `--device`. -/
structure CliArgs where
  split : Option String
  task : Option String
  output_dir : String
  device : String
  deriving DecidableEq, Repr

/-- The command-line override merge, `analyze_example.py` lines 86-95:
`split` / `task` are applied when truthy; `output_dir` / `device` are
applied only when they differ from their built-in defaults. -/
def apply_cli_overrides (cfg : CliArgsConfig) (args : CliArgs) : CliArgsConfig :=
  let cfg1 := match args.split with
    | some s => { cfg with split := some s }
    | none => cfg
  let cfg2 := match args.task with
    | some t => { cfg1 with task := some t, tasks := some [t] }
    | none => cfg1
  let cfg3 := if args.output_dir ≠ "outputs" then { cfg2 with output_dir := args.output_dir }
    else cfg2
  if args.device ≠ "cuda:0" then { cfg3 with device := args.device } else cfg3

/-- The `cli_args` part of `get_default_config`, `analyze_example.py`
lines 36-42. -/
def default_cli_args_config : CliArgsConfig :=
  { split := none, tasks := none, task := none,
    output_dir := "outputs", device := "cuda:0" }

/-- C6: for key `(True, False, False, True, True)` on task `"abc12345"`,
the axis string in the component filenames is `example_height_width` and
the component indices are 0, 1, 2. -/
theorem component_filename_contract (folder : String) :
    tensor_name [true, false, false, true, true] = "example_height_width" ∧
    (List.range 3).map
        (component_filename folder "abc12345" (tensor_name [true, false, false, true, true])) =
      [folder ++ "abc12345_example_height_width_component_0.png",
       folder ++ "abc12345_example_height_width_component_1.png",
       folder ++ "abc12345_example_height_width_component_2.png"] := by
  constructor
  · rfl
  · have h3 : List.range 3 = [0, 1, 2] := rfl
    rw [h3]
    simp only [List.map_cons, List.map_nil, component_filename, String.append_assoc]
    rfl

/-- C10: a command-line `--output-dir` or `--device` value equal to its
built-in default (`'outputs'`, `'cuda:0'`) is never applied as an
override: the configuration's existing value survives the merge. -/
theorem default_cli_values_never_override (cfg : CliArgsConfig)
    (split task : Option String) :
    (apply_cli_overrides cfg ⟨split, task, "outputs", "cuda:0"⟩).output_dir = cfg.output_dir ∧
    (apply_cli_overrides cfg ⟨split, task, "outputs", "cuda:0"⟩).device = cfg.device := by
  cases split <;> cases task <;> simp [apply_cli_overrides]

/-- A key produced by the significance filter always comes from the input
pair list. -/
theorem mem_of_mem_dims_to_plot {pairs : List (List Bool × List ℚ)} {dims : List Bool}
    (h : dims ∈ dims_to_plot pairs) : dims ∈ pairs.map Prod.fst := by
  simp only [dims_to_plot, List.mem_filterMap] at h
  obtain ⟨p, hp, hf⟩ := h
  by_cases hc : 1 < p.2.sum
  · simp only [hc, if_true] at hf
    obtain rfl : p.1 = dims := Option.some.inj hf
    exact List.mem_map_of_mem Prod.fst hp
  · simp [hc] at hf

/-- C2: a key is retained for component visualization iff the sum of its
most recent KL amount exceeds 1 nat (`analyze_example.py` lines 258-262). -/
theorem significance_filter_iff (pairs : List (List Bool × List ℚ))
    (dims : List Bool) (kl : List ℚ)
    (hmem : (dims, kl) ∈ pairs) (hnodup : (pairs.map Prod.fst).Nodup) :
    dims ∈ dims_to_plot pairs ↔ 1 < kl.sum := by
  constructor
  · intro h
    simp only [dims_to_plot, List.mem_filterMap] at h
    obtain ⟨p, hp, hf⟩ := h
    by_cases hc : 1 < p.2.sum
    · simp only [hc, if_true] at hf
      have hp1 : p.1 = dims := Option.some.inj hf
      have hpe : p = (dims, kl) :=
        List.inj_on_of_nodup_map hnodup hp hmem (by simpa using hp1)
      rw [hpe] at hc
      exact hc
    · simp [hc] at hf
  · intro h
    simp only [dims_to_plot, List.mem_filterMap]
    exact ⟨(dims, kl), hmem, by simp [h]⟩

/-- Witness for `significance_filter_iff`: the key at total KL 5 is kept,
the key at total KL 1/5 is not. -/
theorem significance_filter_iff_witness :
    ((([true], [(5 : ℚ)]) :: ([false], [(1 : ℚ)/5]) :: []).map Prod.fst).Nodup ∧
    ([true] ∈ dims_to_plot [([true], [(5 : ℚ)]), ([false], [(1 : ℚ)/5])] ↔
      1 < ([(5 : ℚ)] : List ℚ).sum) ∧
    ([false] ∈ dims_to_plot [([true], [(5 : ℚ)]), ([false], [(1 : ℚ)/5])] ↔
      1 < ([(1 : ℚ)/5] : List ℚ).sum) :=
  ⟨by decide,
   significance_filter_iff _ [true] [(5 : ℚ)] (by simp) (by decide),
   significance_filter_iff _ [false] [(1 : ℚ)/5] (by simp) (by decide)⟩

/-- `torch.mean(torch.stack(items, dim=0), dim=0)` from `average_samples`
(`analyze_example.py` line 251): the elementwise mean of the sample
tensors.  The non-channel axes are flattened into the single index
`Fin m` (`m` = product of the non-channel sizes); the channel axis is
`Fin c`. -/
def stack_mean (m c : ℕ) (items : List (Fin m → Fin c → ℚ)) : Fin m → Fin c → ℚ :=
  fun i j => (items.map (fun t => t i j)).sum / (items.length : ℚ)

/-- `mean - np.mean(mean, axis=all_but_last_dim)` from `average_samples`
(`analyze_example.py` lines 252-253): subtract, per channel entry, the
mean over all non-channel axes. -/
def center_non_channel (m c : ℕ) (t : Fin m → Fin c → ℚ) : Fin m → Fin c → ℚ :=
  fun i j => t i j - (∑ i' : Fin m, t i' j) / (m : ℚ)

/-- `average_samples` from `analyze_example.py` lines 250-254: Monte Carlo
mean of the samples followed by per-key centering over the non-channel
axes.  It is applied to every key of the multitensor by
`multitensor_systems.multify` (line 255). -/
def average_samples (m c : ℕ) (items : List (Fin m → Fin c → ℚ)) : Fin m → Fin c → ℚ :=
  center_non_channel m c (stack_mean m c items)

/-- C3: after averaging and centering, the mean (equivalently the sum) of
each key's tensor over all non-channel axes is zero at every channel
entry. -/
theorem centering_invariant (m c : ℕ) (hm : 0 < m)
    (items : List (Fin m → Fin c → ℚ)) (j : Fin c) :
    ∑ i : Fin m, average_samples m c items i j = 0 := by
  have hm0 : (m : ℚ) ≠ 0 := Nat.cast_ne_zero.mpr hm.ne'
  simp only [average_samples, center_non_channel]
  rw [Finset.sum_sub_distrib, Finset.sum_const, Finset.card_univ, Fintype.card_fin,
    nsmul_eq_mul]
  have key : (m : ℚ) * ((∑ i' : Fin m, stack_mean m c items i' j) / (m : ℚ)) =
      ∑ i' : Fin m, stack_mean m c items i' j := by
    field_simp
  rw [key, sub_self]

/-- Witness for `centering_invariant` at a concrete 2×1 tensor. -/
theorem centering_invariant_witness :
    ∑ i : Fin 2, average_samples 2 1 [fun i _ => if i.val = 0 then 3 else 7] i ⟨0, Nat.one_pos⟩ = 0 :=
  centering_invariant 2 1 (by decide) _ _

/-- The steps of the training loop at which solution previews are saved
(`analyze_example.py` lines 153-161): `t` ranges over
`range(n_iterations)` and a preview is saved when
`(t + 1) % plot_interval == 0`. -/
def plot_steps (n_iterations plot_interval : ℕ) : List ℕ :=
  (List.range n_iterations).filter (fun t => (t + 1) % plot_interval = 0)

/-- The (png, pdf) solution-preview file pairs saved by the training loop
(`analyze_example.py` lines 158-161). -/
def solution_preview_pairs (folder task_name : String) (n_iterations plot_interval : ℕ) :
    List (String × String) :=
  (plot_steps n_iterations plot_interval).map (fun t =>
    (folder ++ task_name ++ "_at_" ++ toString (t + 1) ++ " steps.png",
     folder ++ task_name ++ "_at_" ++ toString (t + 1) ++ " steps.pdf"))

/-- Modelled from the spec: `train.take_step` and
`solution_selection.Logger` are not under `src/`; per the spec the logger
appends exactly one reconstruction-error entry per training step, so the
persisted `reconstruction_error_curve` after `n` steps has length `n`. -/
def reconstruction_error_curve_length (n_iterations : ℕ) : ℕ := n_iterations

/-- C7: a preview pair is saved exactly at steps `t < n` with
`(t+1) % p = 0`; 10 steps at interval 5 give exactly 2 pairs, and the
reconstruction-error curve then has one entry per step (length 10). -/
theorem plot_schedule_and_curve_length (folder task_name : String) (n p : ℕ) :
    (∀ t, t ∈ plot_steps n p ↔ t < n ∧ (t + 1) % p = 0) ∧
    (solution_preview_pairs folder task_name 10 5).length = 2 ∧
    reconstruction_error_curve_length 10 = 10 := by
  refine ⟨fun t => ?_, ?_, rfl⟩
  · simp [plot_steps, List.mem_filter, List.mem_range]
  · rw [solution_preview_pairs, List.length_map]
    rfl

/-- Witness for `plot_schedule_and_curve_length` at concrete values. -/
theorem plot_schedule_and_curve_length_witness :
    (4 ∈ plot_steps 10 5 ↔ 4 < 10 ∧ (4 + 1) % 5 = 0) ∧
    (solution_preview_pairs "out/" "abc12345" 10 5).length = 2 :=
  ⟨(plot_schedule_and_curve_length "out/" "abc12345" 10 5).1 4,
   (plot_schedule_and_curve_length "out/" "abc12345" 10 5).2.1⟩

/-- `np.max(np.abs(v))` over the entries of a component column
(`analyze_example.py` lines 281, 352); 0 for the (never occurring) empty
column. -/
def max_abs (v : List ℚ) : ℚ := v.foldr (fun x acc => max |x| acc) 0

/-- `U[:, k]`: column `k` of the left-singular-vector matrix. -/
def matrix_column (U : List (List ℚ)) (k : ℕ) : List ℚ :=
  U.map (fun row => row.getD k 0)

/-- `component / np.max(np.abs(component))` (`analyze_example.py` lines
281, 352). -/
def normalize_component (v : List ℚ) : List ℚ :=
  v.map (fun x => x / max_abs v)

/-- `strength = S[component_num] / tensor.shape[0]` (`analyze_example.py`
lines 282, 353). -/
def component_strength (S : List ℚ) (k rows : ℕ) : ℚ :=
  S.getD k 0 / (rows : ℚ)

/-- The per-key component extraction loop (`analyze_example.py` lines
278-282 and 349-353): for `component_num in range(3)`, the normalized
left-singular column paired with its strength.  The SVD factors `U`, `S`
of the flattened (rows × channel) matrix are inputs (`np.linalg.svd` is
external). -/
def extract_components (U : List (List ℚ)) (S : List ℚ) (rows : ℕ) :
    List (List ℚ × ℚ) :=
  (List.range 3).map (fun k =>
    (normalize_component (matrix_column U k), component_strength S k rows))

/-- Every entry of a list is bounded in absolute value by `max_abs`. -/
theorem abs_le_max_abs {v : List ℚ} {x : ℚ} (h : x ∈ v) : |x| ≤ max_abs v := by
  induction v with
  | nil => cases h
  | cons a t ih =>
    simp only [max_abs, List.foldr_cons]
    rcases List.mem_cons.mp h with rfl | hmem
    · exact le_max_left _ _
    · exact le_trans (ih hmem) (le_max_right _ _)

/-- C4: exactly 3 components are extracted; component `k` is the `k`-th
left-singular column divided by its own maximum absolute value, its
entries lie in `[-1, 1]`, and its strength is the `k`-th singular value
divided by the row count. -/
theorem top3_components_spec (U : List (List ℚ)) (S : List ℚ) (rows k : ℕ)
    (hk : k < 3) (hpos : 0 < max_abs (matrix_column U k)) :
    (extract_components U S rows).length = 3 ∧
    (extract_components U S rows)[k]? =
      some (normalize_component (matrix_column U k), S.getD k 0 / (rows : ℚ)) ∧
    ∀ x ∈ normalize_component (matrix_column U k), -1 ≤ x ∧ x ≤ 1 := by
  refine ⟨by simp [extract_components], ?_, ?_⟩
  · rw [extract_components, List.getElem?_map, List.getElem?_range hk]
    rfl
  · intro x hx
    simp only [normalize_component, List.mem_map] at hx
    obtain ⟨y, hy, rfl⟩ := hx
    have h1 : |y| ≤ max_abs (matrix_column U k) := abs_le_max_abs hy
    have h2 : |y / max_abs (matrix_column U k)| ≤ 1 := by
      rw [abs_div, abs_of_pos hpos]
      exact div_le_one_of_le₀ h1 (le_of_lt hpos)
    exact abs_le.mp h2

/-- Witness for `top3_components_spec` on a concrete 2×2 identity `U`. -/
theorem top3_components_spec_witness :
    (extract_components [[1, 0], [0, 1]] [2, 1] 2).length = 3 ∧
    (extract_components [[1, 0], [0, 1]] [2, 1] 2)[0]? =
      some (normalize_component (matrix_column [[1, 0], [0, 1]] 0),
        ([2, 1] : List ℚ).getD 0 0 / ((2 : ℕ) : ℚ)) ∧
    ∀ x ∈ normalize_component (matrix_column [[1, 0], [0, 1]] 0), -1 ≤ x ∧ x ≤ 1 :=
  top3_components_spec [[1, 0], [0, 1]] [2, 1] 2 0 (by decide) (by decide)

/-- The action the plotting loop takes on one significant key. -/
inductive PlotAction where
  | svd3 : List ℕ → PlotAction
  | svd4 : List ℕ → PlotAction
  | skip : PlotAction
  deriving DecidableEq, Repr

/-- Lines 272-274 of `analyze_example.py`:
`if len(orig_shape) == 2: tensor = tensor[None,:,:]` — a leading
singleton axis is inserted exactly when the tensor (channel axis
included) has 2 axes. -/
def promote_shape (shape : List ℕ) : List ℕ :=
  if shape.length = 2 then 1 :: shape else shape

/-- The shape dispatch of the plotting loop (`analyze_example.py` lines
269-347): after the possible promotion, the 3-axis branch runs when the
shape has 3 entries; the 4-axis subplot branch runs when it has 4 entries
and `dims[3] == 1 and dims[4] == 1`; otherwise the key is not plotted. -/
def process_tensor (dims : List Bool) (shape : List ℕ) : PlotAction :=
  let s := promote_shape shape
  if s.length = 3 then PlotAction.svd3 s
  else if s.length = 4 ∧ dims.getD 3 false = true ∧ dims.getD 4 false = true then
    PlotAction.svd4 s
  else PlotAction.skip

/-- Modelled from the spec: `layers.decode_latents` is not under `src/`;
per spec §3 a key's decoded tensor has one axis per true entry of the key
(sizes of the present axes, in order) plus one trailing channel axis. -/
def mean_tensor_shape (dims : List Bool) (sizes : List ℕ) (channel : ℕ) : List ℕ :=
  ((sizes.zip dims).filterMap (fun p => if p.2 then some p.1 else none)) ++ [channel]

/-- Counterexample to C1: the all-false (channel-only) key has a rank-1
tensor, which matches no branch of the plotting loop — no leading
singleton axis is inserted and no SVD runs. -/
theorem rank0_key_not_promoted :
    mean_tensor_shape [false, false, false, false, false] [2, 3, 8, 4, 4] 4 = [4] ∧
    process_tensor [false, false, false, false, false] [4] = PlotAction.skip ∧
    process_tensor [false, false, false, false, false] [4] ≠ PlotAction.svd3 [1, 4] := by
  decide

/-- C1 (amended): the leading-singleton promotion applies to keys whose
tensor has non-channel rank 1 (shape `(n, channel)`), which are then
handled by the 3-axis SVD branch exactly like a rank-2 key; a key of
non-channel rank 0 (shape `(channel,)`) matches no branch and produces no
components. -/
theorem rank1_key_promoted (dims : List Bool) (n channel : ℕ) :
    process_tensor dims [n, channel] = PlotAction.svd3 [1, n, channel] ∧
    ∀ c : ℕ, process_tensor dims [c] = PlotAction.skip := by
  constructor
  · simp [process_tensor, promote_shape]
  · intro c
    simp [process_tensor, promote_shape]

/-- Witness for `rank1_key_promoted` at a concrete key and shape. -/
theorem rank1_key_promoted_witness :
    process_tensor [false, true, false, false, false] [3, 4] = PlotAction.svd3 [1, 3, 4] ∧
    ∀ c : ℕ, process_tensor [false, true, false, false, false] [c] = PlotAction.skip :=
  rank1_key_promoted [false, true, false, false, false] 3 4

/-- Witness for `component_filename_contract` at a concrete folder. -/
theorem component_filename_contract_witness :
    tensor_name [true, false, false, true, true] = "example_height_width" ∧
    (List.range 3).map
        (component_filename "outputs/abc12345/" "abc12345"
          (tensor_name [true, false, false, true, true])) =
      ["outputs/abc12345/" ++ "abc12345_example_height_width_component_0.png",
       "outputs/abc12345/" ++ "abc12345_example_height_width_component_1.png",
       "outputs/abc12345/" ++ "abc12345_example_height_width_component_2.png"] :=
  component_filename_contract "outputs/abc12345/"

/-- Witness for `default_cli_values_never_override` at a concrete config. -/
theorem default_cli_values_never_override_witness :
    (apply_cli_overrides
        { split := some "training", tasks := some ["272f95fa"], task := some "272f95fa",
          output_dir := "custom_out", device := "cpu" }
        ⟨some "training", some "272f95fa", "outputs", "cuda:0"⟩).output_dir = "custom_out" ∧
    (apply_cli_overrides
        { split := some "training", tasks := some ["272f95fa"], task := some "272f95fa",
          output_dir := "custom_out", device := "cpu" }
        ⟨some "training", some "272f95fa", "outputs", "cuda:0"⟩).device = "cpu" :=
  default_cli_values_never_override _ (some "training") (some "272f95fa")

/-- `direction_names` from `analyze_example.py` lines 330, 382. -/
def direction_names : List String := ["↓", "↘", "→", "↗", "↑", "↖", "←", "↙"]

/-- The sub-image title of the 4-axis subplot branch (`analyze_example.py`
lines 366, 375-383): the first present axis of the key determines the
label of sub-image `plot_idx` — example index, color name, or direction
glyph.  The code sets no title in any other case, modelled as `""`. -/
def subplot_title (dims : List Bool) (restricted_color_names : List String)
    (plot_idx : ℕ) : String :=
  let ax_dim := (present_axis_names dims).getD 0 ""
  if ax_dim = "example" then "example " ++ toString plot_idx
  else if ax_dim = "color" then restricted_color_names.getD plot_idx ""
  else if ax_dim = "direction" then direction_names.getD plot_idx ""
  else ""

/-- The horizontal strip of sub-image titles of the 4-axis branch
(`analyze_example.py` lines 354-383): `n_plots = orig_shape[0]`
sub-images, one per index along the first (the non-height/width) axis. -/
def strip_titles (dims : List Bool) (shape : List ℕ)
    (restricted_color_names : List String) : List String :=
  (List.range (shape.getD 0 0)).map (subplot_title dims restricted_color_names)

/-- C5: for a key with exactly 3 non-channel axes, the subplot branch runs
iff height and width are both present, and then it produces one sub-image
per index along the first (extra) axis, titled by that axis's semantic
label. -/
theorem strip_branch_iff (d0 d1 d2 d3 d4 : Bool) (n h w channel : ℕ)
    (restricted_color_names : List String)
    (h3 : ([d0, d1, d2, d3, d4].count true) = 3) :
    (process_tensor [d0, d1, d2, d3, d4] [n, h, w, channel] =
        PlotAction.svd4 [n, h, w, channel] ↔ d3 = true ∧ d4 = true) ∧
    (d3 = true → d4 = true →
      strip_titles [d0, d1, d2, d3, d4] [n, h, w, channel] restricted_color_names =
        (List.range n).map (fun i =>
          if d0 then "example " ++ toString i
          else if d1 then restricted_color_names.getD i ""
          else direction_names.getD i "")) := by
  cases d0 <;> cases d1 <;> cases d2 <;> cases d3 <;> cases d4 <;>
    simp_all [process_tensor, promote_shape, strip_titles, subplot_title,
      present_axis_names, axis_names]

/-- Witness for `strip_branch_iff` at the key (example, height, width). -/
theorem strip_branch_iff_witness :
    (process_tensor [true, false, false, true, true] [2, 4, 4, 8] =
        PlotAction.svd4 [2, 4, 4, 8] ↔ true = true ∧ true = true) ∧
    (true = true → true = true →
      strip_titles [true, false, false, true, true] [2, 4, 4, 8] ["black", "red"] =
        (List.range 2).map (fun i =>
          if true then "example " ++ toString i
          else if false then (["black", "red"] : List String).getD i ""
          else direction_names.getD i "")) :=
  strip_branch_iff true false false true true 2 4 4 8 ["black", "red"] (by decide)

/-- The `U` factor `numpy.linalg.svd` returns for an all-zero m×c matrix:
the m×m identity (`gesdd` on a zero matrix converges trivially; all
singular values are 0 and no exception is raised). -/
def svd_zero_U (m : ℕ) : List (List ℚ) :=
  (List.range m).map (fun i => (List.range m).map (fun j => if i = j then 1 else 0))

/-- The singular values `numpy.linalg.svd` returns for an all-zero
matrix: all zero. -/
def svd_zero_S (k : ℕ) : List ℚ := List.replicate k 0

/-- `getD` of an all-zero replicate list is 0 at every index. -/
theorem getD_replicate_zero (k j : ℕ) : (List.replicate k (0 : ℚ)).getD j 0 = 0 := by
  induction k generalizing j with
  | zero => simp
  | succ k ih =>
    cases j with
    | zero => simp [List.replicate]
    | succ j => simp [List.replicate, ih j]

/-- Counterexample to C8: on the SVD factors of a degenerate (all-zero)
4×2 matrix, the extraction step completes silently and produces its usual
three components (each with strength 0) — there is no error path in the
code (no check, no exception handler), so nothing is surfaced. -/
theorem zero_matrix_svd_not_surfaced :
    (extract_components (svd_zero_U 4) (svd_zero_S 2) 4).length = 3 ∧
    ∀ p ∈ extract_components (svd_zero_U 4) (svd_zero_S 2) 4, p.2 = 0 := by
  constructor
  · simp [extract_components]
  · intro p hp
    simp only [extract_components, List.mem_map, List.mem_range] at hp
    obtain ⟨j, _, rfl⟩ := hp
    show component_strength (svd_zero_S 2) j 4 = 0
    rw [component_strength, svd_zero_S, getD_replicate_zero, zero_div]

/-- C8 (amended): the code never checks for a degenerate matrix — the SVD
of an all-zero matrix succeeds with all singular values 0, and the
extraction step silently yields the standard three components, each with
strength 0. -/
theorem zero_matrix_components_silent (m k rows : ℕ) :
    (extract_components (svd_zero_U m) (svd_zero_S k) rows).length = 3 ∧
    ∀ p ∈ extract_components (svd_zero_U m) (svd_zero_S k) rows, p.2 = 0 := by
  constructor
  · simp [extract_components]
  · intro p hp
    simp only [extract_components, List.mem_map, List.mem_range] at hp
    obtain ⟨j, _, rfl⟩ := hp
    show component_strength (svd_zero_S k) j rows = 0
    rw [component_strength, svd_zero_S, getD_replicate_zero, zero_div]

/-- `process_task` from `batch_analyze.py` lines 37-48, modelled on its
observable log output: the per-task sub-run is an `Except`-valued runner
(`Except.error` models `subprocess.CalledProcessError` raised by
`check=True` on a nonzero exit).  The error is caught and a message
naming the task id is printed; nothing is re-raised. -/
def process_task (runner : String → String → Except String Unit)
    (split task_id : String) : List String :=
  let pre := "\nProcessing task " ++ task_id ++ " from " ++ split ++ " split..."
  match runner split task_id with
  | Except.ok _ => [pre]
  | Except.error e => [pre, "Error processing task " ++ task_id ++ ": " ++ e]

/-- The pool dispatch of `main` (`batch_analyze.py` lines 73-79): every
(split, task) pair is processed. -/
def run_batch (runner : String → String → Except String Unit)
    (tasks : List (String × String)) : List (List String) :=
  tasks.map (fun p => process_task runner p.1 p.2)

/-- C9: a failed sub-run is caught and logged with its task identifier,
and every task in the batch is still processed (one log per task, a
failure never aborts the batch). -/
theorem batch_isolates_failures (runner : String → String → Except String Unit)
    (tasks : List (String × String)) (split task_id e : String)
    (hfail : runner split task_id = Except.error e) :
    (run_batch runner tasks).length = tasks.length ∧
    (∀ p ∈ tasks, process_task runner p.1 p.2 ∈ run_batch runner tasks) ∧
    "Error processing task " ++ task_id ++ ": " ++ e ∈ process_task runner split task_id := by
  refine ⟨by simp [run_batch], fun p hp => List.mem_map_of_mem _ hp, ?_⟩
  simp [process_task, hfail]

/-- Witness for `batch_isolates_failures`: a batch of two tasks where the
second one fails. -/
theorem batch_isolates_failures_witness :
    (run_batch (fun _ t => if t = "bad00000" then Except.error "exit 1" else Except.ok ())
        [("training", "272f95fa"), ("training", "bad00000")]).length = 2 ∧
    (∀ p ∈ [("training", "272f95fa"), ("training", "bad00000")],
      process_task (fun _ t => if t = "bad00000" then Except.error "exit 1" else Except.ok ())
          p.1 p.2 ∈
        run_batch (fun _ t => if t = "bad00000" then Except.error "exit 1" else Except.ok ())
          [("training", "272f95fa"), ("training", "bad00000")]) ∧
    "Error processing task " ++ "bad00000" ++ ": " ++ "exit 1" ∈
      process_task (fun _ t => if t = "bad00000" then Except.error "exit 1" else Except.ok ())
        "training" "bad00000" :=
  batch_isolates_failures _ [("training", "272f95fa"), ("training", "bad00000")]
    "training" "bad00000" "exit 1" rfl

end CompressARC
